import Mathlib

/-!
Shallow embedding of the HeatShift incentive calculator
(`solution_FRA.py`): the data model, the matcher, the amount
calculator, the stacking aggregator, the static catalogs and the CO₂
estimator, with Python floats modelled as exact rationals (`ℚ`) and
Python's truthiness of optional strings / floats made explicit
(`None` and `""` are falsy; a float is truthy iff it is nonzero).
Division raising `ZeroDivisionError` is modelled as `Option`.
-/

attribute [local semireducible] Rat.ofScientific Rat.mul Rat.add Rat.inv Rat.sub

/-- The `IncentiveType` string enum of the source. -/
inductive IncentiveType where
  | NATIONAL
  | STATE
  | CITY
  | UTILITY
  | LOAN
deriving DecidableEq, Repr

/-- The `BuildingProfile` dataclass, with the source's default field values. -/
structure BuildingProfile where
  country : String
  city : String
  owner_type : String := "homeowner"
  income_level : String := "medium"
  building_type : String := "single_family"
  year_built : Int := 1975
  current_heating : String := "gas"
  target_tech : String := "heat_pump_air"
  total_cost : ℚ := 28000
  annual_current_cost : ℚ := 2200
  annual_hp_cost : ℚ := 1100
deriving DecidableEq, Repr

/-- The `Incentive` dataclass, with the source's default field values. -/
structure Incentive where
  id : String
  name : String
  source : IncentiveType
  country : String
  city : Option String := none
  description : String := ""
  coverage_rate : ℚ := 0
  max_amount : ℚ := 0
  eligible_owner_types : List String := []
  eligible_building_types : List String := []
  eligible_current_heat : List String := []
  eligible_target_tech : List String := []
  income_target : Option String := none
  is_loan : Bool := false
  interest_rate : Option ℚ := none
  max_loan_share : Option ℚ := none
deriving DecidableEq, Repr

/-- The `IncentiveResult` dataclass: one matched incentive with its amount. -/
structure IncentiveResult where
  incentive : Incentive
  amount : ℚ
deriving DecidableEq, Repr

/-- The `Supplier` dataclass (`renewable_share` is an `int` in the source). -/
structure Supplier where
  name : String
  country : String
  city : String
  tariff : String
  price_kwh : ℚ
  renewable_share : Int
  contact : String
deriving DecidableEq, Repr

/-- The `StackedPlan` dataclass. -/
structure StackedPlan where
  incentives : List IncentiveResult
  total : ℚ
  share : ℚ
  remaining : ℚ
deriving DecidableEq, Repr

/-- Python's builtin `min` on two rationals, written with the executable
order on `ℚ` so that concrete plans evaluate inside the kernel; it agrees
with Mathlib's `min` (see `qmin_eq_min`). -/
def qmin (a b : ℚ) : ℚ :=
  if a ≤ b then a else b

/-- Python's builtin `max` on two rationals, executable twin of `max`. -/
def qmax (a b : ℚ) : ℚ :=
  if a ≤ b then b else a

theorem qmin_eq_min (a b : ℚ) : qmin a b = min a b :=
  (min_def a b).symm

theorem qmax_eq_max (a b : ℚ) : qmax a b = max a b :=
  (max_def a b).symm

/-- Python's `str.lower()`. Lean's own `String.toLower` maps `Char.toLower`
over the characters but does not reduce in the kernel; this copy does the
same through the character list. -/
def lower (s : String) : String :=
  String.mk (s.data.map Char.toLower)

/-- The matcher `match_incentive(i, p)`: a chain of early-return guards.
Python's `if i.city and ...` / `if i.income_target and ...` tests the
truthiness of the optional string, so `none` and `some ""` are both
treated as "no restriction"; an empty restriction list is likewise falsy
and so always satisfied. -/
def match_incentive (i : Incentive) (p : BuildingProfile) : Bool :=
  if i.country != p.country then false
  else if (match i.city with
           | some c => c != "" && lower c != lower p.city
           | none => false) then false
  else if (match i.income_target with
           | some t => t != "" && t != p.income_level
           | none => false) then false
  else if !i.eligible_owner_types.isEmpty
          && !i.eligible_owner_types.contains p.owner_type then false
  else if !i.eligible_building_types.isEmpty
          && !i.eligible_building_types.contains p.building_type then false
  else if !i.eligible_current_heat.isEmpty
          && !i.eligible_current_heat.contains p.current_heating then false
  else if !i.eligible_target_tech.isEmpty
          && !i.eligible_target_tech.contains p.target_tech then false
  else true

/-- The amount calculator `calc_incentive_amount(i, p)`. Python's
`if i.max_amount:` is the float's truthiness, i.e. `max_amount ≠ 0`
(a negative cap is truthy too and is applied by `min`). -/
def calc_incentive_amount (i : Incentive) (p : BuildingProfile) : ℚ :=
  if i.is_loan then 0
  else
    let value := p.total_cost * i.coverage_rate
    if i.max_amount != 0 then qmin value i.max_amount else value

/-- The accumulation loop of `build_stacked_plan`: a matched incentive is
appended iff its computed amount is strictly positive. -/
def stack_applied (p : BuildingProfile) (incentives : List Incentive) :
    List IncentiveResult :=
  incentives.filterMap (fun inc =>
    if match_incentive inc p then
      let amount := calc_incentive_amount inc p
      if 0 < amount then some ⟨inc, amount⟩ else none
    else none)

/-- The stacking aggregator `build_stacked_plan(p, incentives)`. -/
def build_stacked_plan (p : BuildingProfile) (incentives : List Incentive) :
    StackedPlan :=
  let applied := stack_applied p incentives
  let raw_total := (applied.map (fun r => r.amount)).sum
  let total := qmin raw_total p.total_cost
  let share := if 0 < p.total_cost then total / p.total_cost else 0
  let remaining := p.total_cost - total
  ⟨applied, total, share, remaining⟩

/-- The static multi-country incentive catalog `incentives_multi(country, city)`:
the German federal/state/loan entries, the Frankfurt city entries added when
`city.lower() == "frankfurt"`, the Austrian and Polish entries, and the
generic EU demo entry otherwise. -/
def incentives_multi (country : String) (city : String) : List Incentive :=
  if country == "DE" then
    [{ id := "DE_BEG_WG",
       name := "Federal BEG WG Heat Pump Grant",
       source := IncentiveType.NATIONAL,
       country := "DE",
       coverage_rate := 0.30,
       max_amount := 18000,
       eligible_owner_types := ["homeowner"],
       eligible_building_types := ["single_family"],
       eligible_current_heat := ["gas", "oil"],
       eligible_target_tech := ["heat_pump_air", "heat_pump_ground"] },
     { id := "DE_HESSEN",
       name := "Hessen Heat Pump Bonus",
       source := IncentiveType.STATE,
       country := "DE",
       coverage_rate := 0.10,
       max_amount := 4000,
       eligible_owner_types := ["homeowner"],
       eligible_current_heat := ["gas"],
       eligible_target_tech := ["heat_pump_air"] },
     { id := "DE_KFW",
       name := "KfW Green Heat Loan (0.9%)",
       source := IncentiveType.LOAN,
       country := "DE",
       is_loan := true,
       interest_rate := some 0.009,
       max_loan_share := some 0.80 }]
    ++
    (if lower city == "frankfurt" then
      [{ id := "DE_FFM_TOPUP",
         name := "Frankfurt Climate Upgrade Grant",
         source := IncentiveType.CITY,
         country := "DE",
         city := some "Frankfurt",
         coverage_rate := 0.08,
         max_amount := 3000,
         eligible_owner_types := ["homeowner"],
         eligible_target_tech := ["heat_pump_air"] },
       { id := "DE_MAINOVA",
         name := "Mainova Green Heat Rebate",
         source := IncentiveType.UTILITY,
         country := "DE",
         city := some "Frankfurt",
         max_amount := 500,
         eligible_owner_types := ["homeowner"],
         eligible_current_heat := ["gas"] }]
     else [])
  else if country == "AT" then
    [{ id := "AT_NATIONAL",
       name := "Austria Renewable Heating Bonus",
       source := IncentiveType.NATIONAL,
       country := "AT",
       coverage_rate := 0.25,
       max_amount := 14000,
       eligible_owner_types := ["homeowner"],
       eligible_target_tech := ["heat_pump_air", "heat_pump_ground"] },
     { id := "AT_CITY",
       name := city ++ " Local Heat Pump Grant",
       source := IncentiveType.CITY,
       country := "AT",
       city := some city,
       coverage_rate := 0.10,
       max_amount := 4000,
       eligible_owner_types := ["homeowner"] }]
  else if country == "PL" then
    [{ id := "PL_CLEAN_AIR",
       name := "Poland Clean Air Heat Pump Program",
       source := IncentiveType.NATIONAL,
       country := "PL",
       coverage_rate := 0.30,
       max_amount := 12000,
       eligible_owner_types := ["homeowner"],
       eligible_current_heat := ["coal", "gas", "oil"],
       eligible_target_tech := ["heat_pump_air", "heat_pump_ground"] }]
  else
    [{ id := "EU_DEMO",
       name := "EU Demo Renovation Grant",
       source := IncentiveType.NATIONAL,
       country := country,
       coverage_rate := 0.20,
       max_amount := 10000,
       eligible_owner_types := ["homeowner"] }]

/-- The static supplier table inside `suppliers_multi`. -/
def supplier_data : List Supplier :=
  [{ name := "Mainova GreenHeat",
     country := "DE",
     city := "Frankfurt",
     tariff := "100% renewable electricity",
     price_kwh := 0.286,
     renewable_share := 100,
     contact := "mainova.de" },
   { name := "Naturstrom AG",
     country := "DE",
     city := "Frankfurt",
     tariff := "Premium Ökostrom",
     price_kwh := 0.295,
     renewable_share := 100,
     contact := "naturstrom.de" },
   { name := "Wien Energie Naturstrom",
     country := "AT",
     city := "Vienna",
     tariff := "100% Ökostrom",
     price_kwh := 0.290,
     renewable_share := 100,
     contact := "wienenergie.at" },
   { name := "Polenergia Green",
     country := "PL",
     city := "Warsaw",
     tariff := "Green electricity tariff",
     price_kwh := 0.280,
     renewable_share := 100,
     contact := "polenergia.pl" },
   { name := "EU Green Power",
     country := "EU",
     city := "Capital",
     tariff := "Generic demo green tariff",
     price_kwh := 0.300,
     renewable_share := 100,
     contact := "eugreen.eu" }]

/-- The supplier lookup `suppliers_multi(country, city)`: the static entries
matching the jurisdiction (city compared case-insensitively), or, when none
match, a single generic fallback supplier at price 0.30 with 100% renewables. -/
def suppliers_multi (country : String) (city : String) : List Supplier :=
  let res := supplier_data.filter
    (fun s => s.country == country && lower s.city == lower city)
  if res.isEmpty then
    [{ name := country ++ " Green Supplier",
       country := country,
       city := city,
       tariff := "Renewable mix (demo)",
       price_kwh := 0.30,
       renewable_share := 100,
       contact := "example.com" }]
  else res

/-- Checked division: Python float division raises `ZeroDivisionError` on a
zero divisor (a negative divisor divides normally), modelled as `none`. -/
def pydiv (n d : ℚ) : Option ℚ :=
  if d = 0 then none else some (n / d)

/-- The generic-grid emission factor constant of `calc_co2_profile`
(ton CO₂ per MWh). -/
def grid_ef : ℚ := 0.35

/-- The effective grid emission factor computed inside `calc_co2_profile`:
`grid_ef * (1 - supplier.renewable_share / 100.0)`. -/
def effective_grid_ef (s : Supplier) : ℚ :=
  grid_ef * (1 - (s.renewable_share : ℚ) / 100)

/-- The CO₂ estimator `calc_co2_profile(p, supplier)`, returning
`(co2_before, max(co2_after, 0), co2_saved)`. The division by
`supplier.price_kwh` is performed unguarded in the source; `pydiv` makes
the division fault observable as `none`. The divisor `fossil_price` is the
nonzero constant 0.12, so only the supplier division can fault. -/
def calc_co2_profile (p : BuildingProfile) (s : Supplier) :
    Option (ℚ × ℚ × ℚ) := do
  let fossil_price : ℚ := 0.12
  let fossil_ef : ℚ := 0.202
  let kwh_before ← pydiv p.annual_current_cost fossil_price
  let co2_before := kwh_before * fossil_ef / 1000
  let hp_kwh ← pydiv p.annual_hp_cost s.price_kwh
  let co2_after := hp_kwh * effective_grid_ef s / 1000
  let co2_saved := qmax (co2_before - co2_after) 0
  return (co2_before, qmax co2_after 0, co2_saved)

/-- The energy-savings metric `calc_energy_savings(p)`. -/
def calc_energy_savings (p : BuildingProfile) : ℚ :=
  p.annual_current_cost - p.annual_hp_cost

/-- The avoided-emissions value `calc_tax_savings(co2_saved_tons)` at the
fixed CO₂ price of 45 per ton. -/
def calc_tax_savings (co2_saved_tons : ℚ) : ℚ :=
  co2_saved_tons * 45

/-- The loan-interest metric `calc_green_loan_savings(p)`: a 5% standard
loan versus a 0.9% green loan over 10 years on 80% of the project cost. -/
def calc_green_loan_savings (p : BuildingProfile) : ℚ :=
  let loan_amount := p.total_cost * 0.80
  loan_amount * 0.05 * 10 - loan_amount * 0.009 * 10

/-- The `co2_before` value computed inside `calc_co2_profile`:
annual cost over the fossil price 0.12, times the fossil emission factor
0.202, over 1000. -/
def co2_before_of (p : BuildingProfile) : ℚ :=
  p.annual_current_cost / 0.12 * 0.202 / 1000

/-!
Concrete fixtures: the German/Frankfurt scenario of the spec and a few
inputs used to instantiate the universally quantified theorems.
-/

/-- The scenario profile: Germany, Frankfurt, and the source's defaults
(homeowner, single-family, gas heating, air heat pump, cost 28000,
medium income). -/
def scenario_profile : BuildingProfile :=
  { country := "DE", city := "Frankfurt" }

/-- The federal BEG grant entry of the German catalog. -/
def beg_grant : Incentive :=
  { id := "DE_BEG_WG",
    name := "Federal BEG WG Heat Pump Grant",
    source := IncentiveType.NATIONAL,
    country := "DE",
    coverage_rate := 0.30,
    max_amount := 18000,
    eligible_owner_types := ["homeowner"],
    eligible_building_types := ["single_family"],
    eligible_current_heat := ["gas", "oil"],
    eligible_target_tech := ["heat_pump_air", "heat_pump_ground"] }

/-- The KfW loan entry of the German catalog. -/
def kfw_loan : Incentive :=
  { id := "DE_KFW",
    name := "KfW Green Heat Loan (0.9%)",
    source := IncentiveType.LOAN,
    country := "DE",
    is_loan := true,
    interest_rate := some 0.009,
    max_loan_share := some 0.80 }

/-- The federal grant as it appears in the scenario plan: amount 8400. -/
def beg_grant_result : IncentiveResult :=
  ⟨beg_grant, 8400⟩

/-- The generic fallback supplier for a jurisdiction with no static entry. -/
def demo_supplier : Supplier :=
  { name := "FR Green Supplier",
    country := "FR",
    city := "Paris",
    tariff := "Renewable mix (demo)",
    price_kwh := 0.30,
    renewable_share := 100,
    contact := "example.com" }

/-!
Helper lemmas about the stacking aggregator.
-/

/-- Membership in the applied list forces the three inclusion conditions of
the loop: the incentive matched, the stored amount is the calculator's
result, and that amount is strictly positive. -/
theorem mem_stack_applied {p : BuildingProfile} {incs : List Incentive}
    {r : IncentiveResult} (hr : r ∈ stack_applied p incs) :
    match_incentive r.incentive p = true ∧
      r.amount = calc_incentive_amount r.incentive p ∧ 0 < r.amount := by
  simp only [stack_applied, List.mem_filterMap] at hr
  obtain ⟨inc, -, h⟩ := hr
  by_cases hm : match_incentive inc p
  · rw [if_pos hm] at h
    by_cases ha : 0 < calc_incentive_amount inc p
    · rw [if_pos ha] at h
      cases h
      exact ⟨hm, rfl, ha⟩
    · rw [if_neg ha] at h
      cases h
  · rw [if_neg hm] at h
    cases h

/-- The amounts summed by the aggregator are nonnegative. -/
theorem stack_applied_sum_nonneg (p : BuildingProfile) (incs : List Incentive) :
    0 ≤ ((stack_applied p incs).map (fun r => r.amount)).sum := by
  apply List.sum_nonneg
  intro x hx
  obtain ⟨r, hr, rfl⟩ := List.mem_map.mp hx
  exact le_of_lt (mem_stack_applied hr).2.2

/-- The plan's incentive list is exactly the applied list of the loop. -/
theorem build_stacked_plan_incentives (p : BuildingProfile)
    (incs : List Incentive) :
    (build_stacked_plan p incs).incentives = stack_applied p incs := rfl

/-!
Characterization of the matcher. `matches_spec` renders the spec's
matching contract (§4.1) as a proposition: jurisdiction, optional city,
optional income tier, and the four restriction lists. The source tests the
optional strings for Python truthiness, so a `none` (and the degenerate
`some ""`, which is falsy in Python and hence "unset") places no
restriction. -/

/-- The spec's matching contract: country equal; a (non-empty) city
restriction equal case-insensitively; a (non-empty) required income tier
equal exactly; and each restriction list empty or containing the profile's
corresponding field. -/
def matches_spec (i : Incentive) (p : BuildingProfile) : Prop :=
  i.country = p.country ∧
  (∀ c, i.city = some c → c ≠ "" → lower c = lower p.city) ∧
  (∀ t, i.income_target = some t → t ≠ "" → t = p.income_level) ∧
  (i.eligible_owner_types = [] ∨ p.owner_type ∈ i.eligible_owner_types) ∧
  (i.eligible_building_types = [] ∨
    p.building_type ∈ i.eligible_building_types) ∧
  (i.eligible_current_heat = [] ∨
    p.current_heating ∈ i.eligible_current_heat) ∧
  (i.eligible_target_tech = [] ∨ p.target_tech ∈ i.eligible_target_tech)

/-- The city guard of the matcher fires exactly on a non-empty city
restriction that differs case-insensitively from the profile's city. -/
theorem guard_city_iff (i : Incentive) (p : BuildingProfile) :
    ((match i.city with
      | some c => c != "" && lower c != lower p.city
      | none => false) = true) ↔
      ∃ c, i.city = some c ∧ c ≠ "" ∧ lower c ≠ lower p.city := by
  cases hc : i.city <;> simp [bne_iff_ne]

/-- The income guard fires exactly on a non-empty income target that
differs from the profile's income level. -/
theorem guard_income_iff (i : Incentive) (p : BuildingProfile) :
    ((match i.income_target with
      | some t => t != "" && t != p.income_level
      | none => false) = true) ↔
      ∃ t, i.income_target = some t ∧ t ≠ "" ∧ t ≠ p.income_level := by
  cases ht : i.income_target <;> simp [bne_iff_ne]

/-- A restriction-list guard fires exactly on a non-empty list missing the
profile's value. -/
theorem guard_list_iff (l : List String) (a : String) :
    ((!l.isEmpty && !l.contains a) = true) ↔ l ≠ [] ∧ a ∉ l := by
  simp [List.isEmpty_iff]

/-- The matcher returns `true` exactly on the spec's conditions. -/
theorem match_incentive_eq_true_iff (i : Incentive) (p : BuildingProfile) :
    match_incentive i p = true ↔ matches_spec i p := by
  unfold match_incentive matches_spec
  split_ifs with h1 h2 h3 h4 h5 h6 h7
  · simp only [false_iff]
    rintro ⟨hco, -, -, -, -, -, -⟩
    exact bne_iff_ne.mp h1 hco
  · simp only [false_iff]
    rintro ⟨-, hcity, -, -, -, -, -⟩
    obtain ⟨c, hc, hne, hlow⟩ := (guard_city_iff i p).mp h2
    exact hlow (hcity c hc hne)
  · simp only [false_iff]
    rintro ⟨-, -, hinc, -, -, -, -⟩
    obtain ⟨t, ht, htne, hne⟩ := (guard_income_iff i p).mp h3
    exact hne (hinc t ht htne)
  · simp only [false_iff]
    rintro ⟨-, -, -, hx, -, -, -⟩
    obtain ⟨hne, hnm⟩ := (guard_list_iff _ _).mp h4
    rcases hx with h | h
    · exact hne h
    · exact hnm h
  · simp only [false_iff]
    rintro ⟨-, -, -, -, hx, -, -⟩
    obtain ⟨hne, hnm⟩ := (guard_list_iff _ _).mp h5
    rcases hx with h | h
    · exact hne h
    · exact hnm h
  · simp only [false_iff]
    rintro ⟨-, -, -, -, -, hx, -⟩
    obtain ⟨hne, hnm⟩ := (guard_list_iff _ _).mp h6
    rcases hx with h | h
    · exact hne h
    · exact hnm h
  · simp only [false_iff]
    rintro ⟨-, -, -, -, -, -, hx⟩
    obtain ⟨hne, hnm⟩ := (guard_list_iff _ _).mp h7
    rcases hx with h | h
    · exact hne h
    · exact hnm h
  · simp only [true_iff]
    refine ⟨?_, ?_, ?_, ?_, ?_, ?_, ?_⟩
    · by_contra hco
      exact h1 (bne_iff_ne.mpr hco)
    · intro c hc hne
      by_contra hlow
      exact h2 ((guard_city_iff i p).mpr ⟨c, hc, hne, hlow⟩)
    · intro t ht htne
      by_contra hne
      exact h3 ((guard_income_iff i p).mpr ⟨t, ht, htne, hne⟩)
    · by_cases hl : i.eligible_owner_types = []
      · exact Or.inl hl
      · refine Or.inr ?_
        by_contra hmem
        exact h4 ((guard_list_iff _ _).mpr ⟨hl, hmem⟩)
    · by_cases hl : i.eligible_building_types = []
      · exact Or.inl hl
      · refine Or.inr ?_
        by_contra hmem
        exact h5 ((guard_list_iff _ _).mpr ⟨hl, hmem⟩)
    · by_cases hl : i.eligible_current_heat = []
      · exact Or.inl hl
      · refine Or.inr ?_
        by_contra hmem
        exact h6 ((guard_list_iff _ _).mpr ⟨hl, hmem⟩)
    · by_cases hl : i.eligible_target_tech = []
      · exact Or.inl hl
      · refine Or.inr ?_
        by_contra hmem
        exact h7 ((guard_list_iff _ _).mpr ⟨hl, hmem⟩)

/-!
The claims.
-/

/-- Claim C2: `match_incentive i p = true` iff the country matches, a
(non-empty) city restriction matches case-insensitively, a (non-empty)
required income tier matches exactly, and each of the four restriction
lists is empty or contains the profile's corresponding field; in
particular an incentive with matching jurisdiction, no income target and
all four lists empty matches every profile regardless of its other
fields. -/
theorem C2_match_incentive_contract (i : Incentive) (p : BuildingProfile) :
    (match_incentive i p = true ↔ matches_spec i p) ∧
    (i.country = p.country → i.city = none → i.income_target = none →
      i.eligible_owner_types = [] → i.eligible_building_types = [] →
      i.eligible_current_heat = [] → i.eligible_target_tech = [] →
      match_incentive i p = true) := by
  refine ⟨match_incentive_eq_true_iff i p, ?_⟩
  intro h1 h2 h3 h4 h5 h6 h7
  rw [match_incentive_eq_true_iff]
  refine ⟨h1, ?_, ?_, Or.inl h4, Or.inl h5, Or.inl h6, Or.inl h7⟩
  · intro c hc
    rw [h2] at hc
    cases hc
  · intro t ht
    rw [h3] at ht
    cases ht

/-- Claim C9: from any matching pair, spoiling a single restricted
dimension — country, a non-empty city restriction, a non-empty income
target, or membership in a non-empty restriction list — while all other
profile fields stay fixed makes the matcher return `false`. -/
theorem C9_restricted_dimension_isolation (i : Incentive)
    (p : BuildingProfile) (h : match_incentive i p = true) :
    (∀ c2, c2 ≠ i.country →
      match_incentive i { p with country := c2 } = false) ∧
    (∀ c c2, i.city = some c → c ≠ "" → lower c2 ≠ lower c →
      match_incentive i { p with city := c2 } = false) ∧
    (∀ t lvl, i.income_target = some t → t ≠ "" → lvl ≠ t →
      match_incentive i { p with income_level := lvl } = false) ∧
    (∀ o, i.eligible_owner_types ≠ [] → o ∉ i.eligible_owner_types →
      match_incentive i { p with owner_type := o } = false) ∧
    (∀ b, i.eligible_building_types ≠ [] → b ∉ i.eligible_building_types →
      match_incentive i { p with building_type := b } = false) ∧
    (∀ ch, i.eligible_current_heat ≠ [] → ch ∉ i.eligible_current_heat →
      match_incentive i { p with current_heating := ch } = false) ∧
    (∀ tt, i.eligible_target_tech ≠ [] → tt ∉ i.eligible_target_tech →
      match_incentive i { p with target_tech := tt } = false) := by
  refine ⟨?_, ?_, ?_, ?_, ?_, ?_, ?_⟩
  · intro c2 hne
    rw [Bool.eq_false_iff]
    intro hm
    rw [match_incentive_eq_true_iff] at hm
    exact hne hm.1.symm
  · intro c c2 hc hcne hlow
    rw [Bool.eq_false_iff]
    intro hm
    rw [match_incentive_eq_true_iff] at hm
    exact hlow (hm.2.1 c hc hcne).symm
  · intro t lvl ht htne hlvl
    rw [Bool.eq_false_iff]
    intro hm
    rw [match_incentive_eq_true_iff] at hm
    exact hlvl (hm.2.2.1 t ht htne).symm
  · intro o hne hnm
    rw [Bool.eq_false_iff]
    intro hm
    rw [match_incentive_eq_true_iff] at hm
    rcases hm.2.2.2.1 with hx | hx
    · exact hne hx
    · exact hnm hx
  · intro b hne hnm
    rw [Bool.eq_false_iff]
    intro hm
    rw [match_incentive_eq_true_iff] at hm
    rcases hm.2.2.2.2.1 with hx | hx
    · exact hne hx
    · exact hnm hx
  · intro ch hne hnm
    rw [Bool.eq_false_iff]
    intro hm
    rw [match_incentive_eq_true_iff] at hm
    rcases hm.2.2.2.2.2.1 with hx | hx
    · exact hne hx
    · exact hnm hx
  · intro tt hne hnm
    rw [Bool.eq_false_iff]
    intro hm
    rw [match_incentive_eq_true_iff] at hm
    rcases hm.2.2.2.2.2.2 with hx | hx
    · exact hne hx
    · exact hnm hx

/-- Witness for C9: the federal grant matches the scenario profile, and
switching the profile's country to AT alone flips the matcher to false. -/
theorem C9_restricted_dimension_isolation_witness :
    match_incentive beg_grant { scenario_profile with country := "AT" } =
      false :=
  (C9_restricted_dimension_isolation beg_grant scenario_profile
    (by decide)).1 "AT" (by decide)

/-- A non-loan incentive with a negative cap: `-1` is a truthy Python
float, so `calc_incentive_amount` applies `min(value, -1)`. -/
def negcap_incentive : Incentive :=
  { id := "CEX_NEGCAP",
    name := "Negative cap rebate",
    source := IncentiveType.UTILITY,
    country := "DE",
    coverage_rate := 1,
    max_amount := -1 }

/-- A profile with project cost 10 for the negative-cap counterexample. -/
def ten_cost_profile : BuildingProfile :=
  { country := "DE", city := "X", total_cost := 10 }

/-- A capped incentive with an enormous coverage rate, for the zero-cost
saturation counterexample. -/
def sat_incentive : Incentive :=
  { id := "CEX_SAT",
    name := "Capped grant",
    source := IncentiveType.NATIONAL,
    country := "DE",
    coverage_rate := 1000000,
    max_amount := 5 }

/-- A profile with project cost 0. -/
def zero_cost_profile : BuildingProfile :=
  { country := "DE", city := "X", total_cost := 0 }

/-- Counterexample to claim C4 as stated. First input: a non-loan incentive
with `max_amount = -1` (not `> 0`) and a profile with cost 10 at coverage
rate 1; the claim predicts the raw value `10` and a nonnegative result, but
the code applies the truthy negative cap and returns `-1`. Second input: a
capped incentive (`max_amount = 5 > 0`) against a zero-cost profile; the
raw value is `0` at every coverage rate (here 1000000), so no coverage rate
ever makes the result equal `max_amount`. -/
theorem C4_amount_formula_counterexample :
    (negcap_incentive.is_loan = false ∧
     0 ≤ ten_cost_profile.total_cost ∧
     0 ≤ negcap_incentive.coverage_rate ∧
     ¬0 < negcap_incentive.max_amount ∧
     ten_cost_profile.total_cost * negcap_incentive.coverage_rate = 10 ∧
     calc_incentive_amount negcap_incentive ten_cost_profile = -1) ∧
    (sat_incentive.is_loan = false ∧
     0 < sat_incentive.max_amount ∧
     0 ≤ zero_cost_profile.total_cost ∧
     0 ≤ sat_incentive.coverage_rate ∧
     calc_incentive_amount sat_incentive zero_cost_profile = 0 ∧
     calc_incentive_amount sat_incentive zero_cost_profile ≠
       sat_incentive.max_amount) := by
  decide

/-- Claim C4 as amended: for a non-loan incentive with `max_amount ≥ 0` and
a profile with `total_cost ≥ 0`, `coverage_rate ≥ 0`, the calculator
returns `min(total_cost * coverage_rate, max_amount)` when `max_amount > 0`
and the raw product otherwise; the result is nonnegative and monotonically
non-decreasing in the coverage rate; and when `max_amount > 0` and
`total_cost > 0`, every coverage rate at or above `max_amount / total_cost`
yields exactly `max_amount`. -/
theorem C4_amended_amount_calculator (i : Incentive) (p : BuildingProfile)
    (hloan : i.is_loan = false) (hmax : 0 ≤ i.max_amount)
    (hcost : 0 ≤ p.total_cost) (hrate : 0 ≤ i.coverage_rate) :
    calc_incentive_amount i p =
      (if 0 < i.max_amount then
        min (p.total_cost * i.coverage_rate) i.max_amount
      else p.total_cost * i.coverage_rate) ∧
    0 ≤ calc_incentive_amount i p ∧
    (∀ r1 r2 : ℚ, r1 ≤ r2 →
      calc_incentive_amount { i with coverage_rate := r1 } p ≤
        calc_incentive_amount { i with coverage_rate := r2 } p) ∧
    (0 < i.max_amount → 0 < p.total_cost →
      ∀ r : ℚ, i.max_amount / p.total_cost ≤ r →
        calc_incentive_amount { i with coverage_rate := r } p =
          i.max_amount) := by
  have hcalc : ∀ r : ℚ,
      calc_incentive_amount { i with coverage_rate := r } p =
        if i.max_amount != 0 then qmin (p.total_cost * r) i.max_amount
        else p.total_cost * r := by
    intro r
    simp [calc_incentive_amount, hloan]
  have hform : calc_incentive_amount i p =
      if 0 < i.max_amount then
        min (p.total_cost * i.coverage_rate) i.max_amount
      else p.total_cost * i.coverage_rate := by
    by_cases h0 : i.max_amount = 0
    · simp [calc_incentive_amount, hloan, h0]
    · have hpos : 0 < i.max_amount := lt_of_le_of_ne hmax (Ne.symm h0)
      simp [calc_incentive_amount, hloan, h0, hpos, qmin_eq_min]
  refine ⟨hform, ?_, ?_, ?_⟩
  · rw [hform]
    by_cases hpos : 0 < i.max_amount
    · rw [if_pos hpos]
      exact le_min (mul_nonneg hcost hrate) hmax
    · rw [if_neg hpos]
      exact mul_nonneg hcost hrate
  · intro r1 r2 h12
    rw [hcalc, hcalc]
    by_cases h0 : i.max_amount = 0
    · simp only [h0, bne_self_eq_false, if_false]
      exact mul_le_mul_of_nonneg_left h12 hcost
    · rw [if_pos (bne_iff_ne.mpr h0), if_pos (bne_iff_ne.mpr h0),
        qmin_eq_min, qmin_eq_min]
      exact min_le_min (mul_le_mul_of_nonneg_left h12 hcost) le_rfl
  · intro hpos htc r hr
    rw [hcalc, if_pos (bne_iff_ne.mpr (ne_of_gt hpos)), qmin_eq_min]
    refine min_eq_right ?_
    have := (div_le_iff₀ htc).mp hr
    linarith [this]

/-- Witness for the amended C4 at the federal grant and the scenario
profile. -/
theorem C4_amended_amount_calculator_witness :
    0 ≤ calc_incentive_amount beg_grant scenario_profile :=
  (C4_amended_amount_calculator beg_grant scenario_profile (by decide)
    (by decide) (by decide) (by decide)).2.1

/-- An uncapped incentive reimbursing 200% of cost: its single amount
already exceeds the project cost, so the aggregate cap binds. -/
def overcap_incentive : Incentive :=
  { id := "CEX_OVER",
    name := "Uncapped double coverage",
    source := IncentiveType.NATIONAL,
    country := "DE",
    coverage_rate := 2,
    max_amount := 0 }

/-- Claim C6: the plan lists a matched incentive only when its computed
amount is strictly positive, keeps each listed amount equal to the
calculator's result with no proportional rescaling, and sets
`total = min(sum of listed amounts, total_cost)`; consequently there are a
profile and a catalog whose listed amounts sum to strictly more than the
plan's total. -/
theorem C6_aggregate_cap_no_prorata (p : BuildingProfile)
    (incs : List Incentive) :
    (∀ r ∈ (build_stacked_plan p incs).incentives,
      match_incentive r.incentive p = true ∧
        r.amount = calc_incentive_amount r.incentive p ∧ 0 < r.amount) ∧
    (build_stacked_plan p incs).total =
      min (((build_stacked_plan p incs).incentives.map
        (fun r => r.amount)).sum) p.total_cost ∧
    (∃ p2 incs2, (build_stacked_plan p2 incs2).total <
      ((build_stacked_plan p2 incs2).incentives.map
        (fun r => r.amount)).sum) := by
  refine ⟨?_, ?_, ⟨ten_cost_profile, [overcap_incentive], by decide⟩⟩
  · intro r hr
    rw [build_stacked_plan_incentives] at hr
    exact mem_stack_applied hr
  · rw [build_stacked_plan_incentives, ← qmin_eq_min]
    rfl

/-- A supplier whose energy price is zero. -/
def zero_price_supplier : Supplier :=
  { name := "Zero Price",
    country := "DE",
    city := "X",
    tariff := "broken tariff",
    price_kwh := 0,
    renewable_share := 50,
    contact := "nowhere" }

/-- Counterexample to claim C7 as stated: `calc_co2_profile` divides by
`supplier.price_kwh` with no guard, so a supplier price of 0 (which is
`≤ 0`) produces a division fault (`none`) instead of being intercepted. -/
theorem C7_unguarded_division_counterexample :
    zero_price_supplier.price_kwh ≤ 0 ∧
    calc_co2_profile scenario_profile zero_price_supplier = none := by
  decide

/-- Claim C7 as amended: the division by the supplier price is unguarded —
a zero price faults (no result), and any nonzero price, including a
negative one, is divided through silently; the positive-price assumption
lives with the caller, not in `calc_co2_profile`. -/
theorem C7_amended_division_unguarded (p : BuildingProfile)
    (s : Supplier) :
    (s.price_kwh = 0 → calc_co2_profile p s = none) ∧
    (s.price_kwh ≠ 0 → (calc_co2_profile p s).isSome = true) := by
  have h12 : (0.12 : ℚ) ≠ 0 := by norm_num
  constructor
  · intro h
    simp [calc_co2_profile, pydiv, h, h12]
  · intro h
    simp [calc_co2_profile, pydiv, h, h12]

/-- Claim C8: with a positive supplier price and a 100% renewable share,
the effective grid emission factor is 0, so the CO₂ after the switch is 0
and the CO₂ saved equals the CO₂ before (which needs the nonnegative
annual-cost assumptions); and every result the estimator returns has
nonnegative `co2_after` and `co2_saved`. -/
theorem C8_full_renewable_share_co2 (p : BuildingProfile) (s : Supplier)
    (hcur : 0 ≤ p.annual_current_cost) (hhp : 0 ≤ p.annual_hp_cost)
    (hprice : 0 < s.price_kwh) (hshare : s.renewable_share = 100) :
    effective_grid_ef s = 0 ∧
    calc_co2_profile p s = some (co2_before_of p, 0, co2_before_of p) ∧
    (∀ q u b a sv, calc_co2_profile q u = some (b, a, sv) →
      0 ≤ a ∧ 0 ≤ sv) := by
  have h12 : (0.12 : ℚ) ≠ 0 := by norm_num
  have heff : effective_grid_ef s = 0 := by
    rw [effective_grid_ef, hshare]
    norm_num
  have hbefore : 0 ≤ co2_before_of p := by
    rw [co2_before_of]
    positivity
  have e1 : pydiv p.annual_current_cost 0.12 =
      some (p.annual_current_cost / 0.12) := if_neg h12
  have e2 : pydiv p.annual_hp_cost s.price_kwh =
      some (p.annual_hp_cost / s.price_kwh) := if_neg (ne_of_gt hprice)
  refine ⟨heff, ?_, ?_⟩
  · simp only [calc_co2_profile, e1, e2, Option.bind_eq_bind,
      Option.some_bind, heff, mul_zero, zero_div, sub_zero]
    rw [show qmax (0 : ℚ) 0 = 0 from rfl,
      show p.annual_current_cost / 0.12 * 0.202 / 1000 = co2_before_of p
        from rfl,
      qmax_eq_max, max_eq_left hbefore]
    rfl
  · intro q u b a sv heq
    by_cases hz : u.price_kwh = 0
    · have ez : pydiv q.annual_hp_cost u.price_kwh = none := if_pos hz
      have e1q : pydiv q.annual_current_cost 0.12 =
          some (q.annual_current_cost / 0.12) := if_neg h12
      simp [calc_co2_profile, e1q, ez] at heq
    · have ez : pydiv q.annual_hp_cost u.price_kwh =
          some (q.annual_hp_cost / u.price_kwh) := if_neg hz
      have e1q : pydiv q.annual_current_cost 0.12 =
          some (q.annual_current_cost / 0.12) := if_neg h12
      simp only [calc_co2_profile, e1q, ez, Option.bind_eq_bind,
        Option.some_bind, pure, Option.some.injEq, Prod.mk.injEq] at heq
      obtain ⟨-, ha, hsv⟩ := heq
      constructor
      · rw [← ha, qmax_eq_max]
        exact le_max_right _ _
      · rw [← hsv, qmax_eq_max]
        exact le_max_right _ _

/-- Witness for C8 at the scenario profile and the generic fallback
supplier (price 0.30, 100% renewable). -/
theorem C8_full_renewable_share_co2_witness :
    effective_grid_ef demo_supplier = 0 :=
  (C8_full_renewable_share_co2 scenario_profile demo_supplier (by decide)
    (by decide) (by decide) rfl).1

/-- Claim C10: `suppliers_multi` never returns an empty list — when no
static entry matches the country and (case-insensitive) city, it returns
exactly one generic fallback supplier for that jurisdiction with price
0.30 and 100% renewable share. -/
theorem C10_suppliers_nonempty_fallback (country city : String) :
    suppliers_multi country city ≠ [] ∧
    (supplier_data.filter
        (fun s => s.country == country && lower s.city == lower city) =
          [] →
      suppliers_multi country city =
        [{ name := country ++ " Green Supplier", country := country,
           city := city, tariff := "Renewable mix (demo)",
           price_kwh := 0.30, renewable_share := 100,
           contact := "example.com" }]) := by
  constructor
  · simp only [suppliers_multi]
    by_cases h : (supplier_data.filter
        (fun s => s.country == country && lower s.city == lower city)).isEmpty
    · rw [if_pos h]
      exact List.cons_ne_nil _ _
    · rw [if_neg h]
      intro he
      exact h (by rw [he]; rfl)
  · intro hfil
    simp only [suppliers_multi, hfil]
    rfl

/-- Claim C1: for every profile with `total_cost ≥ 0` and every catalog, the
plan built by `build_stacked_plan` satisfies `0 ≤ total ≤ total_cost`,
`share = total / total_cost` when `total_cost > 0` and `share = 0` when
`total_cost = 0`, and `remaining = total_cost - total` with
`remaining ≥ 0`. -/
theorem C1_stacked_plan_invariants (p : BuildingProfile)
    (catalog : List Incentive) (h : 0 ≤ p.total_cost) :
    0 ≤ (build_stacked_plan p catalog).total ∧
    (build_stacked_plan p catalog).total ≤ p.total_cost ∧
    (0 < p.total_cost →
      (build_stacked_plan p catalog).share =
        (build_stacked_plan p catalog).total / p.total_cost) ∧
    (p.total_cost = 0 → (build_stacked_plan p catalog).share = 0) ∧
    (build_stacked_plan p catalog).remaining =
      p.total_cost - (build_stacked_plan p catalog).total ∧
    0 ≤ (build_stacked_plan p catalog).remaining := by
  have htot : (build_stacked_plan p catalog).total =
      min (((stack_applied p catalog).map (fun r => r.amount)).sum)
        p.total_cost := by
    rw [← qmin_eq_min]; rfl
  have hshare : (build_stacked_plan p catalog).share =
      if 0 < p.total_cost then
        (build_stacked_plan p catalog).total / p.total_cost
      else 0 := rfl
  have hrem : (build_stacked_plan p catalog).remaining =
      p.total_cost - (build_stacked_plan p catalog).total := rfl
  refine ⟨?_, ?_, ?_, ?_, hrem, ?_⟩
  · rw [htot]
    exact le_min (stack_applied_sum_nonneg p catalog) h
  · rw [htot]
    exact min_le_right _ _
  · intro hpos
    rw [hshare, if_pos hpos]
  · intro hzero
    rw [hshare, if_neg]
    rw [hzero]
    exact lt_irrefl 0
  · rw [hrem, htot]
    exact sub_nonneg.mpr (min_le_right _ _)

/-- Witness for C1 at the German/Frankfurt scenario. -/
theorem C1_stacked_plan_invariants_witness :
    0 ≤ (build_stacked_plan scenario_profile
          (incentives_multi "DE" "Frankfurt")).total :=
  (C1_stacked_plan_invariants scenario_profile
    (incentives_multi "DE" "Frankfurt") (by decide)).1

/-- Claim C3: stacking the scenario profile (DE, Frankfurt, homeowner,
single-family, gas, air heat pump, cost 28000, medium income) against the
German/Frankfurt catalog yields exactly the federal grant at 8400, the
state bonus at 2800 and the city top-up at 2240 — the 0%-coverage utility
rebate and the loan entry are excluded — with total 13440, share 0.48 and
remaining 14560. -/
theorem C3_frankfurt_scenario :
    (build_stacked_plan scenario_profile
        (incentives_multi "DE" "Frankfurt")).incentives.map
      (fun r => (r.incentive.id, r.amount)) =
      [("DE_BEG_WG", 8400), ("DE_HESSEN", 2800), ("DE_FFM_TOPUP", 2240)] ∧
    (build_stacked_plan scenario_profile
        (incentives_multi "DE" "Frankfurt")).total = 13440 ∧
    (build_stacked_plan scenario_profile
        (incentives_multi "DE" "Frankfurt")).share = 0.48 ∧
    (build_stacked_plan scenario_profile
        (incentives_multi "DE" "Frankfurt")).remaining = 14560 := by
  decide

/-- Claim C5: a loan incentive's calculated amount is 0 for every profile;
and, independently of that profile, no plan built by `build_stacked_plan`
for any profile and catalog ever lists a loan incentive. -/
theorem C5_loans_excluded (i : Incentive) (p : BuildingProfile)
    (hloan : i.is_loan = true) :
    calc_incentive_amount i p = 0 ∧
    (∀ (q : BuildingProfile) (incs : List Incentive) (r : IncentiveResult),
      r ∈ (build_stacked_plan q incs).incentives →
      r.incentive.is_loan = false) := by
  constructor
  · simp [calc_incentive_amount, hloan]
  · intro q incs r hr
    rw [build_stacked_plan_incentives] at hr
    obtain ⟨-, hamt, hpos⟩ := mem_stack_applied hr
    by_cases hl : r.incentive.is_loan
    · rw [hamt] at hpos
      simp [calc_incentive_amount, hl] at hpos
    · simpa using hl

/-- Witness for C5: the KfW loan computes to 0 even on a zero-cost profile,
and the federal-grant entry of the scenario plan is not a loan. -/
theorem C5_loans_excluded_witness :
    calc_incentive_amount kfw_loan zero_cost_profile = 0 ∧
      beg_grant_result.incentive.is_loan = false :=
  ⟨(C5_loans_excluded kfw_loan zero_cost_profile (by decide)).1,
   (C5_loans_excluded kfw_loan zero_cost_profile (by decide)).2
     scenario_profile (incentives_multi "DE" "Frankfurt") beg_grant_result
     (by decide)⟩
